import Mathlib

/-!
# SIM-G11 front end: request orchestration of `App.jsx` and `GoodnessTestInterface.jsx`

A shallow embedding of the two React components of the random-number front end:
their state, the validation done by the generate button, the request bodies
they build, and the asynchronous handlers `handleGenerateNumbers`,
`calculateHistogram`, `performGoodnessTest` (App) and `handleRunTest`
(GoodnessTestInterface).

Modelling conventions.

* A JavaScript number is a `JSNum`: `NaN`, the two infinities, or a finite value.
  A finite double is a rational number and the components only compare numbers
  and test them for truthiness, so finite values are kept as rationals.
* A JavaScript value is a `Val`; an object is the list of its own properties in
  insertion order.
* The argument handed to `JSON.stringify` (or to `axios.post`) stands for the body
  of a request; the textual serialisation itself is not modelled.
* An asynchronous handler is a `Prog`: a sequence of state-setter calls and
  `fetch` suspension points, each with the continuation that runs when the
  response arrives. Handlers read state only through the values captured by the
  render in which they were created (the snapshot `c` they take as argument),
  and every setter call stores an absolute value, so the state after a handler
  is the state at the time of each call with the setter calls applied in order.
* `fetch(...)` followed by `response.json()` is one suspension point: nothing is
  read or written between the two.
-/

namespace SimG11

/-! ## JavaScript values -/

/-- A JavaScript number: `NaN`, `-Infinity`, a finite value, or `+Infinity`. -/
inductive JSNum where
  | nan
  | ninf
  | fin (q : ℚ)
  | pinf
  deriving DecidableEq

namespace JSNum

/-- The JavaScript comparison `x <= y`: false as soon as one side is `NaN`. -/
def le : JSNum → JSNum → Bool
  | nan, _ => false
  | _, nan => false
  | ninf, _ => true
  | _, pinf => true
  | fin p, fin q => decide (p ≤ q)
  | fin _, ninf => false
  | pinf, fin _ => false
  | pinf, ninf => false

/-- The JavaScript comparison `x >= y`: false as soon as one side is `NaN`. -/
def ge (x y : JSNum) : Bool := le y x

/-- The JavaScript comparison `x > y`: false as soon as one side is `NaN`. -/
def gt : JSNum → JSNum → Bool
  | nan, _ => false
  | _, nan => false
  | ninf, _ => false
  | _, pinf => false
  | fin p, fin q => decide (q < p)
  | fin _, ninf => true
  | pinf, fin _ => true
  | pinf, ninf => true

/-- Truthiness of a number: `NaN` and zero are falsy. -/
def truthy : JSNum → Bool
  | nan => false
  | fin q => decide (q ≠ 0)
  | _ => true

/-- The number literal `0`. -/
def zero : JSNum := fin 0

end JSNum

/-- A JavaScript value as the components meet them: `undefined`, or a JSON value.
An object is the list of its own properties in insertion order. -/
inductive Val where
  | undefined
  | null
  | bool (b : Bool)
  | num (n : JSNum)
  | str (s : String)
  | arr (items : List Val)
  | obj (props : List (String × Val))

/-- An object: own properties in insertion order. -/
abbrev Obj := List (String × Val)

namespace Obj

/-- Assignment of one property, as an object literal or a spread does it: an
existing key keeps its position and takes the new value, a new key is appended. -/
def set : Obj → String → Val → Obj
  | [], k, v => [(k, v)]
  | (k', v') :: rest, k, v => if k' = k then (k', v) :: rest else (k', v') :: set rest k v

/-- The spread `{ ...o, ...extra }`: the properties of `extra` assigned onto `o` in order. -/
def spread (o extra : Obj) : Obj :=
  extra.foldl (fun acc kv => set acc kv.1 kv.2) o

/-- Property read `o[k]`: `undefined` when the key is absent. -/
def get (o : Obj) (k : String) : Val :=
  match o.lookup k with
  | some v => v
  | none => Val.undefined

/-- The keys of an object, in insertion order. -/
def keys (o : Obj) : List String := o.map Prod.fst

end Obj

namespace Val

/-- JavaScript truthiness (`!!v`). -/
def truthy : Val → Bool
  | undefined => false
  | null => false
  | bool b => b
  | num n => n.truthy
  | str s => decide (s ≠ "")
  | arr _ => true
  | obj _ => true

/-- The test `v.length === 0` on a value that is neither `null` nor `undefined`. -/
def lengthIsZero : Val → Bool
  | arr items => items.isEmpty
  | str s => decide (s = "")
  | obj props => match Obj.get props "length" with
    | num (JSNum.fin q) => decide (q = 0)
    | _ => false
  | _ => false

/-- The test `v.length > 0`, as the render of App applies it to `randomNumbers`. -/
def lengthPositive : Val → Bool
  | arr items => !items.isEmpty
  | str s => decide (s ≠ "")
  | obj props => match Obj.get props "length" with
    | num n => JSNum.gt n JSNum.zero
    | _ => false
  | _ => false

/-- Optional property read `v?.k`: `undefined` on `null` and `undefined`, the own
property of an object, and `undefined` for a name that no array, string, number
or boolean carries (the names read are `error`, `random_numbers` and the fields
of a test result). -/
def optGet (v : Val) (k : String) : Val :=
  match v with
  | obj props => Obj.get props k
  | _ => undefined

/-- The expression `v || d`. -/
def orElse (v d : Val) : Val := if v.truthy then v else d

end Val

/-- What the browser contributes and the components do not choose: the string
conversion of a value that is not a string, and the messages of the errors the
runtime itself throws. -/
structure Host where
  /-- String conversion of a value that is not a string. -/
  toString : Val → String
  /-- Message of the `TypeError` thrown by reading property `k` of `null` or `undefined`. -/
  nullRead : String → String
  /-- Message of the `SyntaxError` with which `response.json()` rejects on a body that is not JSON. -/
  jsonError : String → String

/-- The `message` of `new Error(v)`: `v` itself when it is a string, its string conversion otherwise. -/
def Host.errorMessage (h : Host) : Val → String
  | Val.str s => s
  | v => h.toString v

/-- Property read `v.k`, which throws a `TypeError` on `null` and `undefined`. -/
def Host.read (h : Host) (v : Val) (k : String) : Except String Val :=
  match v with
  | Val.null => Except.error (h.nullRead k)
  | Val.undefined => Except.error (h.nullRead k)
  | _ => Except.ok (v.optGet k)

/-! ## Component state -/

/-- State `uniformParams` of App: always an object with the keys `a` and `b`. -/
structure UniformParams where
  a : JSNum
  b : JSNum

/-- State `exponentialParams` of App: always an object with the key `lambda`. -/
structure ExponentialParams where
  lambda : JSNum

/-- State `normalParams` of App: always an object with the keys `mean` and `stdDev`. -/
structure NormalParams where
  mean : JSNum
  stdDev : JSNum

/-- State `testParams` of GoodnessTestInterface: always an object with the key `num_bins`. -/
structure TestParams where
  num_bins : JSNum

/-- The object held in `uniformParams`. -/
def UniformParams.toObj (p : UniformParams) : Obj := [("a", Val.num p.a), ("b", Val.num p.b)]

/-- The object held in `exponentialParams`. -/
def ExponentialParams.toObj (p : ExponentialParams) : Obj := [("lambda", Val.num p.lambda)]

/-- The object held in `normalParams`. -/
def NormalParams.toObj (p : NormalParams) : Obj := [("mean", Val.num p.mean), ("stdDev", Val.num p.stdDev)]

/-- The object held in `testParams`. -/
def TestParams.toObj (p : TestParams) : Obj := [("num_bins", Val.num p.num_bins)]

/-- The `useState` cells of `App` (App.jsx lines 9-20). -/
structure AppState where
  loading : Bool
  error : Option String
  distribution : String
  sampleSize : JSNum
  uniformParams : UniformParams
  exponentialParams : ExponentialParams
  normalParams : NormalParams
  numBins : JSNum
  randomNumbers : Val
  histogramData : Val
  goodnessTest : String
  testResults : Val

/-- The `useState` cells of `GoodnessTestInterface` (GoodnessTestInterface.jsx lines 7-10). -/
structure GtiState where
  goodnessTest : String
  testResults : Val
  testParams : TestParams
  error : Val

/-- The state of the page: App and the GoodnessTestInterface it renders. -/
structure State where
  app : AppState
  gti : GtiState

/-- Initial values of the `useState` cells of App. -/
def AppState.init : AppState where
  loading := false
  error := none
  distribution := "uniform"
  sampleSize := JSNum.fin 1000
  uniformParams := ⟨JSNum.fin 0, JSNum.fin 1⟩
  exponentialParams := ⟨JSNum.fin 1⟩
  normalParams := ⟨JSNum.fin 0, JSNum.fin 1⟩
  numBins := JSNum.fin 10
  randomNumbers := Val.arr []
  histogramData := Val.null
  goodnessTest := "chi-square"
  testResults := Val.null

/-- Initial values of the `useState` cells of GoodnessTestInterface. -/
def GtiState.init : GtiState where
  goodnessTest := "chi"
  testResults := Val.null
  testParams := ⟨JSNum.fin 10⟩
  error := Val.str ""

/-- The page as first rendered. -/
def State.init : State := ⟨AppState.init, GtiState.init⟩

/-! ## Requests, responses and programs -/

/-- A `POST` request: target URL and the object serialised as its body. -/
structure Request where
  url : String
  body : Obj

/-- The body of a response: JSON text with the value it parses to, or other text. -/
inductive Body where
  | json (data : Val)
  | text (raw : String)

/-- How a request ends: the transport fails (the promise rejects with an error
carrying `message`), or a response arrives with `ok` telling a 2xx status. -/
inductive Response where
  | rejected (message : String)
  | received (ok : Bool) (body : Body)

/-- A call of one of the state setters. -/
inductive Setter where
  | setLoading (b : Bool)
  | setError (e : Option String)
  | setRandomNumbers (v : Val)
  | setHistogramData (v : Val)
  | setTestResults (v : Val)
  | gtiSetTestResults (v : Val)
  | gtiSetError (v : Val)

/-- The effect of a setter call on the state. -/
def Setter.apply : Setter → State → State
  | setLoading b, s => { s with app := { s.app with loading := b } }
  | setError e, s => { s with app := { s.app with error := e } }
  | setRandomNumbers v, s => { s with app := { s.app with randomNumbers := v } }
  | setHistogramData v, s => { s with app := { s.app with histogramData := v } }
  | setTestResults v, s => { s with app := { s.app with testResults := v } }
  | gtiSetTestResults v, s => { s with gti := { s.gti with testResults := v } }
  | gtiSetError v, s => { s with gti := { s.gti with error := v } }

/-- An asynchronous handler: setter calls and `fetch` suspension points. -/
inductive Prog where
  | done
  | call (u : Setter) (next : Prog)
  | fetch (req : Request) (resume : Response → Prog)

/-- The outcome of running a handler against the responses its requests receive. -/
structure Outcome where
  /-- State after the last setter call that ran. -/
  state : State
  /-- Requests issued, in order. -/
  requests : List Request
  /-- Whether the handler ran to its end (false: a request is still awaited). -/
  finished : Bool

/-- Run a handler from state `s` with no other event in between: the `i`-th request
receives the `i`-th response of `rs`; with no response left the handler stays
suspended at that request. -/
def Prog.run : Prog → List Response → State → Outcome
  | Prog.done, _, s => ⟨s, [], true⟩
  | Prog.call u next, rs, s => Prog.run next rs (u.apply s)
  | Prog.fetch req _, [], s => ⟨s, [req], false⟩
  | Prog.fetch req resume, r :: rs, s =>
    let out := Prog.run (resume r) rs s
    ⟨out.state, req :: out.requests, out.finished⟩

/-! ## App.jsx -/

/-- The constant `API_URL`. -/
def API_URL : String := "http://localhost:5000/api"

/-- The object `requestParams` built by `handleGenerateNumbers` (App.jsx lines 28-49). -/
def generateRequestParams (c : AppState) : Obj :=
  let requestParams : Obj :=
    [("distribution", Val.str c.distribution), ("sample_size", Val.num c.sampleSize)]
  if c.distribution = "uniform" then
    Obj.spread requestParams c.uniformParams.toObj
  else if c.distribution = "exponential" then
    Obj.set requestParams "lambda" (Val.num c.exponentialParams.lambda)
  else if c.distribution = "normal" then
    Obj.set (Obj.set requestParams "mean" (Val.num c.normalParams.mean))
      "std_dev" (Val.num c.normalParams.stdDev)
  else
    requestParams

/-- The `catch` and `finally` blocks shared by `handleGenerateNumbers` and
`performGoodnessTest`: show the message of the error caught, then clear `loading`. -/
def catchFinally (message : String) : Prog :=
  Prog.call (Setter.setError (some message)) (Prog.call (Setter.setLoading false) Prog.done)

/-- The function `calculateHistogram` (App.jsx lines 75-103), followed by `next`:
it catches every error it raises, so its caller always resumes. -/
def calculateHistogram (h : Host) (c : AppState) (numbers : Val) (next : Prog) : Prog :=
  if !numbers.truthy || numbers.lengthIsZero then
    Prog.call (Setter.setError (some "No hay números para calcular el histograma")) next
  else
    Prog.fetch ⟨API_URL ++ "/histogram", [("random_numbers", numbers), ("num_bins", Val.num c.numBins)]⟩
      fun r =>
        match r with
        | Response.rejected message => Prog.call (Setter.setError (some message)) next
        | Response.received _ (Body.text raw) =>
          Prog.call (Setter.setError (some (h.jsonError raw))) next
        | Response.received false (Body.json data) =>
          match h.read data "error" with
          | Except.error message => Prog.call (Setter.setError (some message)) next
          | Except.ok e =>
            Prog.call (Setter.setError
              (some (h.errorMessage (e.orElse (Val.str "Error al calcular el histograma"))))) next
        | Response.received true (Body.json data) =>
          Prog.call (Setter.setHistogramData data) next

/-- The function `handleGenerateNumbers` (App.jsx lines 22-73). -/
def handleGenerateNumbers (h : Host) (c : AppState) : Prog :=
  Prog.call (Setter.setLoading true) <|
  Prog.call (Setter.setError none) <|
  Prog.call (Setter.setTestResults Val.null) <|
  Prog.fetch ⟨API_URL ++ "/generate", generateRequestParams c⟩ fun r =>
    match r with
    | Response.rejected message => catchFinally message
    | Response.received _ (Body.text raw) => catchFinally (h.jsonError raw)
    | Response.received false (Body.json data) =>
      match h.read data "error" with
      | Except.error message => catchFinally message
      | Except.ok e =>
        catchFinally (h.errorMessage (e.orElse (Val.str "Error al generar los números aleatorios")))
    | Response.received true (Body.json data) =>
      match h.read data "random_numbers" with
      | Except.error message => catchFinally message
      | Except.ok numbers =>
        Prog.call (Setter.setRandomNumbers numbers) <|
        calculateHistogram h c numbers (Prog.call (Setter.setLoading false) Prog.done)

/-- The value `currentParams` (App.jsx lines 105-112), passed to
GoodnessTestInterface as `distributionParams`. -/
def currentParams (c : AppState) : Obj :=
  if c.distribution = "uniform" then c.uniformParams.toObj
  else if c.distribution = "exponential" then c.exponentialParams.toObj
  else if c.distribution = "normal" then c.normalParams.toObj
  else []

/-- The `endpoint` chosen by `performGoodnessTest` (App.jsx lines 124-129). -/
def testEndpoint (c : AppState) : String :=
  if c.goodnessTest = "chi-square" then "/chi-square-test"
  else if c.goodnessTest = "ks" then "/ks-test"
  else ""

/-- The object `requestParams` built by `performGoodnessTest` (App.jsx lines 131-154). -/
def testRequestParams (c : AppState) : Obj :=
  let requestParams : Obj :=
    [("random_numbers", c.randomNumbers), ("distribution", Val.str c.distribution),
     ("num_bins", Val.num c.numBins)]
  if c.distribution = "uniform" then
    Obj.spread requestParams c.uniformParams.toObj
  else if c.distribution = "exponential" then
    Obj.set requestParams "lambda" (Val.num c.exponentialParams.lambda)
  else if c.distribution = "normal" then
    Obj.set (Obj.set requestParams "mean" (Val.num c.normalParams.mean))
      "std_dev" (Val.num c.normalParams.stdDev)
  else
    requestParams

/-- The function `performGoodnessTest` (App.jsx lines 114-177). -/
def performGoodnessTest (h : Host) (c : AppState) : Prog :=
  if !c.randomNumbers.truthy || c.randomNumbers.lengthIsZero then
    Prog.call (Setter.setError (some "No hay números generados para realizar la prueba")) Prog.done
  else
    Prog.call (Setter.setLoading true) <|
    Prog.call (Setter.setError none) <|
    Prog.fetch ⟨API_URL ++ testEndpoint c, testRequestParams c⟩ fun r =>
      match r with
      | Response.rejected message => catchFinally message
      | Response.received _ (Body.text raw) => catchFinally (h.jsonError raw)
      | Response.received false (Body.json data) =>
        match h.read data "error" with
        | Except.error message => catchFinally message
        | Except.ok e =>
          catchFinally (h.errorMessage (e.orElse (Val.str "Error al realizar la prueba de bondad")))
      | Response.received true (Body.json data) =>
        Prog.call (Setter.setTestResults data) (Prog.call (Setter.setLoading false) Prog.done)

/-- The `onClick` handler of the button "Generar números aleatorios" (App.jsx lines 334-352). -/
def onGenerateClick (h : Host) (c : AppState) : Prog :=
  if JSNum.le c.sampleSize JSNum.zero then
    Prog.call (Setter.setError (some "El tamaño de la muestra debe ser mayor a 0.")) Prog.done
  else if c.distribution = "exponential" && JSNum.le c.exponentialParams.lambda JSNum.zero then
    Prog.call (Setter.setError (some "Lambda (λ) debe ser mayor a 0.")) Prog.done
  else if c.distribution = "normal" && JSNum.le c.normalParams.stdDev JSNum.zero then
    Prog.call (Setter.setError (some "La desviación estándar (σ) debe ser mayor a 0.")) Prog.done
  else if c.distribution = "uniform" && JSNum.ge c.uniformParams.a c.uniformParams.b then
    Prog.call (Setter.setError
      (some "El valor mínimo (a) no puede ser mayor o igual al valor máximo (b).")) Prog.done
  else
    handleGenerateNumbers h c

/-! ## GoodnessTestInterface.jsx -/

/-- The `endpoint` chosen by `handleRunTest` (GoodnessTestInterface.jsx lines 14-16). -/
def gtiEndpoint (g : GtiState) : String :=
  if g.goodnessTest = "chi" then API_URL ++ "/chi-square-test" else API_URL ++ "/ks-test"

/-- The object `handleRunTest` posts (GoodnessTestInterface.jsx lines 18-23); the props
`randomNumbers`, `distribution` and `distributionParams` are the values App renders
the component with (App.jsx lines 453-457). -/
def gtiRequestBody (c : State) : Obj :=
  Obj.spread
    (Obj.spread
      [("random_numbers", c.app.randomNumbers), ("distribution", Val.str c.app.distribution)]
      (currentParams c.app))
    c.gti.testParams.toObj

/-- What axios hands over as `data`: the parsed value of a JSON body, the text of any other. -/
def axiosData : Body → Val
  | Body.json data => data
  | Body.text raw => Val.str raw

/-- The function `handleRunTest` (GoodnessTestInterface.jsx lines 12-30). `axios.post`
rejects on a transport failure (the error then has no `response`) and on a status
outside 2xx (the error then carries the response). -/
def handleRunTest (c : State) : Prog :=
  Prog.fetch ⟨gtiEndpoint c.gti, gtiRequestBody c⟩ fun r =>
    match r with
    | Response.rejected _ =>
      Prog.call (Setter.gtiSetError (Val.str "Error al ejecutar la prueba")) Prog.done
    | Response.received false body =>
      Prog.call (Setter.gtiSetError
        (((axiosData body).optGet "error").orElse (Val.str "Error al ejecutar la prueba"))) Prog.done
    | Response.received true body =>
      Prog.call (Setter.gtiSetTestResults (axiosData body)) <|
      Prog.call (Setter.gtiSetError (Val.str "")) Prog.done

/-- What the result block of GoodnessTestInterface shows (GoodnessTestInterface.jsx
lines 84-106): the values placed in the heading and in the four lines, and
whether the last line is styled as an acceptance. -/
structure ResultView where
  /-- The kind named in the heading, `testResults.test_type`. -/
  test_type : Val
  /-- The value after "Valor de la estadística:". -/
  statistic : Val
  /-- The value after "Valor crítico:". -/
  critical_value : Val
  /-- The value after "p-valor:". -/
  p_value : Val
  /-- Whether `testResults.decision === 'No se rechaza H0'`. -/
  accepted : Bool
  /-- The value after "Resultado:". -/
  conclusion : Val

/-- The comparison `v === 'No se rechaza H0'`. -/
def isNotRejected : Val → Bool
  | Val.str s => decide (s = "No se rechaza H0")
  | _ => false

/-- The result block rendered by GoodnessTestInterface (GoodnessTestInterface.jsx
lines 84-106): nothing while `testResults` is falsy; otherwise the statistic is
read from the field named by the test kind selected at the time of the render. -/
def renderResults (g : GtiState) : Option ResultView :=
  if g.testResults.truthy then
    some
      { test_type := g.testResults.optGet "test_type"
        statistic :=
          if g.goodnessTest = "chi" then g.testResults.optGet "chi_square_stat"
          else g.testResults.optGet "ks_stat"
        critical_value := g.testResults.optGet "critical_value"
        p_value := g.testResults.optGet "p_value"
        accepted := isNotRejected (g.testResults.optGet "decision")
        conclusion := g.testResults.optGet "conclusion" }
  else none

/-! ## The page as an event system

Handlers overlap: while a request is awaited the user can act and other responses
can arrive. A `Page` is the state together with the requests in flight, each with
the continuation that resumes on its response. -/

/-- A request in flight and the rest of the handler awaiting it. -/
structure Pending where
  req : Request
  resume : Response → Prog

/-- The state of the page and the requests in flight, oldest first. -/
structure Page where
  state : State
  pending : List Pending

/-- The page as first rendered, nothing in flight. -/
def Page.init : Page := ⟨State.init, []⟩

/-- Run a handler up to its next suspension point. -/
def Prog.exec : Prog → State → State × Option Pending
  | Prog.done, s => (s, none)
  | Prog.call u next, s => Prog.exec next (u.apply s)
  | Prog.fetch req resume, s => (s, some ⟨req, resume⟩)

/-- The request in flight on which a handler started in state `c` is suspended, if any. -/
def Prog.suspended (prog : Prog) (c : State) : Option Pending := (prog.exec c).2

/-- Run a piece of handler on the page; a request it suspends on joins the ones in flight. -/
def Page.runProg (p : Page) (prog : Prog) (pending : List Pending) : Page :=
  match prog.exec p.state with
  | (s, none) => ⟨s, pending⟩
  | (s, some w) => ⟨s, pending ++ [w]⟩

/-- What can happen to the page: a click on one of the three buttons, an edit of
one of the inputs, or the arrival of the response to the `i`-th request in flight. -/
inductive Event where
  | clickGenerate
  | clickPerformTest
  | clickRunTest
  | respond (i : Nat) (r : Response)
  | setDistribution (d : String)
  | setSampleSize (n : JSNum)
  | setNumBins (n : JSNum)
  | setUniformA (x : JSNum)
  | setUniformB (x : JSNum)
  | setLambda (x : JSNum)
  | setMean (x : JSNum)
  | setStdDev (x : JSNum)
  | selectTest (ks : Bool)
  | setTestBins (n : JSNum)

/-- Replace the App part of the page state. -/
def Page.withApp (p : Page) (a : AppState) : Page := { p with state := { p.state with app := a } }

/-- Replace the GoodnessTestInterface part of the page state. -/
def Page.withGti (p : Page) (g : GtiState) : Page := { p with state := { p.state with gti := g } }

/-- The values offered by the distribution selector (App.jsx lines 200-202). -/
def distributionOptions : List String := ["uniform", "exponential", "normal"]

/-- The values offered by the two bin selectors (App.jsx lines 230-233,
GoodnessTestInterface.jsx line 67). -/
def binOptions : List JSNum := [JSNum.fin 10, JSNum.fin 15, JSNum.fin 20, JSNum.fin 25]

/-- One event on the page; `none` when the page does not offer it: the two App
buttons are disabled while `loading`, the test button of App is rendered only when
`randomNumbers.length > 0`, the parameter inputs only for the selected distribution,
the bin selector of GoodnessTestInterface only for the chi-square test, and a
selector yields one of its options. A handler started by a click captures the
state of the page at the click. -/
def Page.step (h : Host) (p : Page) : Event → Option Page
  | Event.clickGenerate =>
    if p.state.app.loading then none
    else some (p.runProg (onGenerateClick h p.state.app) p.pending)
  | Event.clickPerformTest =>
    if p.state.app.loading || !p.state.app.randomNumbers.lengthPositive then none
    else some (p.runProg (performGoodnessTest h p.state.app) p.pending)
  | Event.clickRunTest => some (p.runProg (handleRunTest p.state) p.pending)
  | Event.respond i r =>
    match p.pending.get? i with
    | none => none
    | some w => some (p.runProg (w.resume r) (p.pending.eraseIdx i))
  | Event.setDistribution d =>
    if d ∈ distributionOptions then some (p.withApp { p.state.app with distribution := d })
    else none
  | Event.setSampleSize n => some (p.withApp { p.state.app with sampleSize := n })
  | Event.setNumBins n =>
    if n ∈ binOptions then some (p.withApp { p.state.app with numBins := n }) else none
  | Event.setUniformA x =>
    if p.state.app.distribution = "uniform" then
      some (p.withApp { p.state.app with uniformParams := { p.state.app.uniformParams with a := x } })
    else none
  | Event.setUniformB x =>
    if p.state.app.distribution = "uniform" then
      some (p.withApp { p.state.app with uniformParams := { p.state.app.uniformParams with b := x } })
    else none
  | Event.setLambda x =>
    if p.state.app.distribution = "exponential" then
      some (p.withApp { p.state.app with exponentialParams := { p.state.app.exponentialParams with lambda := x } })
    else none
  | Event.setMean x =>
    if p.state.app.distribution = "normal" then
      some (p.withApp { p.state.app with normalParams := { p.state.app.normalParams with mean := x } })
    else none
  | Event.setStdDev x =>
    if p.state.app.distribution = "normal" then
      some (p.withApp { p.state.app with normalParams := { p.state.app.normalParams with stdDev := x } })
    else none
  | Event.selectTest ks =>
    some (p.withGti { p.state.gti with goodnessTest := if ks then "ks" else "chi" })
  | Event.setTestBins n =>
    if p.state.gti.goodnessTest = "chi" ∧ n ∈ binOptions then
      some (p.withGti { p.state.gti with testParams := { p.state.gti.testParams with num_bins := n } })
    else none

/-- A sequence of events from page `p`; `none` as soon as one is not offered. -/
def Page.steps (h : Host) (p : Page) : List Event → Option Page
  | [] => some p
  | e :: es => match p.step h e with
    | none => none
    | some q => Page.steps h q es

/-- A host for evaluating the handlers on concrete inputs. -/
def Host.sample : Host where
  toString := fun _ => "[object Object]"
  nullRead := fun k => "Cannot read properties of null: " ++ k
  jsonError := fun _ => "Unexpected token in JSON"

/-! ## The validation rules as the specification lists them -/

/-- Message shown for `sampleSize <= 0`. -/
def SAMPLE_SIZE_NON_POSITIVE : String := "El tamaño de la muestra debe ser mayor a 0."

/-- Message shown for an exponential distribution with `lambda <= 0`. -/
def LAMBDA_NON_POSITIVE : String := "Lambda (λ) debe ser mayor a 0."

/-- Message shown for a normal distribution with `stdDev <= 0`. -/
def STD_DEV_NON_POSITIVE : String := "La desviación estándar (σ) debe ser mayor a 0."

/-- Message shown for a uniform distribution with `a >= b`. -/
def UNIFORM_BOUNDS_INVALID : String :=
  "El valor mínimo (a) no puede ser mayor o igual al valor máximo (b)."

/-- The four validation rules, each evaluated on its own, in the order sample
size, lambda, standard deviation, uniform bounds: the messages of the rules the
configuration violates. -/
def violations (c : AppState) : List String :=
  (if JSNum.le c.sampleSize JSNum.zero = true then [SAMPLE_SIZE_NON_POSITIVE] else []) ++
  (if c.distribution = "exponential" ∧ JSNum.le c.exponentialParams.lambda JSNum.zero = true
    then [LAMBDA_NON_POSITIVE] else []) ++
  (if c.distribution = "normal" ∧ JSNum.le c.normalParams.stdDev JSNum.zero = true
    then [STD_DEV_NON_POSITIVE] else []) ++
  (if c.distribution = "uniform" ∧ JSNum.ge c.uniformParams.a c.uniformParams.b = true
    then [UNIFORM_BOUNDS_INVALID] else [])

/-- The state `s` with the `error` cell of App set to `e` and nothing else changed. -/
def State.withError (s : State) (e : Option String) : State :=
  { s with app := { s.app with error := e } }

/-! ## Failure of a request -/

/-- A request fails: the transport fails, or the status is not a success status. -/
def Response.failed : Response → Bool
  | Response.rejected _ => true
  | Response.received ok _ => !ok

/-- The message of the error a `fetch`-based stage raises on a response that is
not a success: the message of the transport error, of the `SyntaxError` of a body
that is not JSON, of the `TypeError` of a `null` body, and otherwise the error
built from `data.error` or, when that is falsy, from the text `fallback` of the stage. -/
def failureMessage (h : Host) (fallback : String) : Response → String
  | Response.rejected message => message
  | Response.received _ (Body.text raw) => h.jsonError raw
  | Response.received _ (Body.json data) =>
    match h.read data "error" with
    | Except.error message => message
    | Except.ok e => h.errorMessage (e.orElse (Val.str fallback))

/-- The request `handleGenerateNumbers` sends from snapshot `c`. -/
def generateRequest (c : AppState) : Request := ⟨API_URL ++ "/generate", generateRequestParams c⟩

/-- The histogram request for the sample `numbers` with bin count `numBins`:
body `{random_numbers: numbers, num_bins: numBins}`. -/
def histogramRequest (numbers : Val) (numBins : JSNum) : Request :=
  ⟨API_URL ++ "/histogram", [("random_numbers", numbers), ("num_bins", Val.num numBins)]⟩

/-! ## Reachable pages and the origin of the requests in flight -/

/-- The pages reachable from the first render by the events the page offers. -/
inductive Reachable (h : Host) : Page → Prop where
  | init : Reachable h Page.init
  | step {p q : Page} (e : Event) (before : Reachable h p) (next : p.step h e = some q) :
      Reachable h q

/-- The request in flight was sent by `handleRunTest`. -/
def FromRunTest (w : Pending) : Prop :=
  ∃ c : State, (handleRunTest c).suspended c = some w

/-- The request in flight is the generate request of `handleGenerateNumbers`. -/
def FromGenerate (h : Host) (w : Pending) : Prop :=
  ∃ (c : AppState) (s : State), (handleGenerateNumbers h c).suspended s = some w

/-- The request in flight is the histogram request that `handleGenerateNumbers`
sent through `calculateHistogram` for the sample `numbers`. -/
def FromHistogram (h : Host) (numbers : Val) (w : Pending) : Prop :=
  ∃ (c : AppState) (s : State),
    (calculateHistogram h c numbers (Prog.call (Setter.setLoading false) Prog.done)).suspended s
      = some w

/-- The request in flight is the test request of `performGoodnessTest`, started on
a page holding the sample `numbers`. -/
def FromPerformTest (h : Host) (numbers : Val) (w : Pending) : Prop :=
  ∃ (c : AppState) (s : State),
    c.randomNumbers = numbers ∧ (performGoodnessTest h c).suspended s = some w

/-- The request in flight was sent by a handler of App, and if it carries a sample
it is the sample the state `st` holds. -/
def FromApp (h : Host) (st : State) (w : Pending) : Prop :=
  FromGenerate h w ∨ FromHistogram h st.app.randomNumbers w ∨
    FromPerformTest h st.app.randomNumbers w

/-- The handlers of App exclude one another through `loading`: either `loading` is
false and every request in flight comes from `handleRunTest`, or `loading` is true
and exactly one request in flight comes from App, carrying the current sample. -/
def Exclusive (h : Host) (p : Page) : Prop :=
  (p.state.app.loading = false ∧ ∀ w ∈ p.pending, FromRunTest w) ∨
  (p.state.app.loading = true ∧ ∃ (a : Pending) (rest : List Pending),
    p.pending.Perm (a :: rest) ∧ FromApp h p.state a ∧ ∀ w ∈ rest, FromRunTest w)

/-! ## Concrete inputs -/

/-- A successful generate response carrying the sample `[1]`. -/
def generatedOne : Response :=
  Response.received true (Body.json (Val.obj [("random_numbers", Val.arr [Val.num (JSNum.fin 1)])]))

/-- A histogram table for the sample `[1]`. -/
def histogramOfOne : Val :=
  Val.obj [("frequency_table", Val.arr [Val.obj [("interval", Val.str "[1, 1]"),
    ("frequency", Val.num (JSNum.fin 1)), ("relative_frequency", Val.num (JSNum.fin 1))]])]

/-- A page that already shows the histogram and the test result of an earlier sample `[1]`. -/
def afterEarlierSample : State :=
  { app := { AppState.init with
      randomNumbers := Val.arr [Val.num (JSNum.fin 1)],
      histogramData := histogramOfOne,
      testResults := Val.obj [("test_type", Val.str "chi-square")] },
    gti := { GtiState.init with testResults := Val.obj [("test_type", Val.str "chi-square")] } }

/-- A chi-square test response without the field `p_value`. -/
def chiSquareWithoutPValue : Val :=
  Val.obj [("test_type", Val.str "Chi-cuadrado"), ("chi_square_stat", Val.num (JSNum.fin 3)),
    ("critical_value", Val.num (JSNum.fin 16)), ("decision", Val.str "No se rechaza H0"),
    ("conclusion", Val.str "No se rechaza H0")]

/-- A test result computed for the sample `[1]`. -/
def testResultOfOne : Val :=
  Val.obj [("test_type", Val.str "Chi-cuadrado"), ("chi_square_stat", Val.num (JSNum.fin 3)),
    ("critical_value", Val.num (JSNum.fin 16)), ("p_value", Val.num (JSNum.fin (1 / 2))),
    ("decision", Val.str "No se rechaza H0"), ("conclusion", Val.str "No se rechaza H0")]

/-- A histogram table for the sample `[2]`. -/
def histogramOfTwo : Val :=
  Val.obj [("frequency_table", Val.arr [Val.obj [("interval", Val.str "[2, 2]"),
    ("frequency", Val.num (JSNum.fin 1)), ("relative_frequency", Val.num (JSNum.fin 1))]])]

/-- The events up to the late arrival: the sample `[1]` is generated and its
histogram shown; "Ejecutar Prueba" is clicked; while that test request is in
flight the generate button is clicked again, the sample `[2]` arrives and its
histogram is shown. -/
def overlappingTest : List Event :=
  [Event.clickGenerate,
   Event.respond 0 (Response.received true
     (Body.json (Val.obj [("random_numbers", Val.arr [Val.num (JSNum.fin 1)])]))),
   Event.respond 0 (Response.received true (Body.json histogramOfOne)),
   Event.clickRunTest,
   Event.clickGenerate,
   Event.respond 1 (Response.received true
     (Body.json (Val.obj [("random_numbers", Val.arr [Val.num (JSNum.fin 2)])]))),
   Event.respond 1 (Response.received true (Body.json histogramOfTwo))]

/-- The events of a chi-square test on the sample `[1]`: the sample is generated and
its histogram shown, "Ejecutar Prueba" is clicked with "Chi-cuadrado" selected,
and the result arrives. -/
def chiSquareTestDone : List Event :=
  [Event.clickGenerate,
   Event.respond 0 (Response.received true
     (Body.json (Val.obj [("random_numbers", Val.arr [Val.num (JSNum.fin 1)])]))),
   Event.respond 0 (Response.received true (Body.json histogramOfOne)),
   Event.clickRunTest,
   Event.respond 0 (Response.received true (Body.json testResultOfOne))]

/-- A successful generate response carrying the sample `[2]`. -/
def generatedTwo : Response :=
  Response.received true (Body.json (Val.obj [("random_numbers", Val.arr [Val.num (JSNum.fin 2)])]))

/-- The first render with the sample size set to `0`, the exponential distribution
selected and `lambda` set to `-1`: two rules are violated. -/
def zeroSizeNegativeLambda : State :=
  { State.init with app := { AppState.init with
      sampleSize := JSNum.fin 0, distribution := "exponential",
      exponentialParams := ⟨JSNum.fin (-1)⟩ } }

/-- The first render with the sample size set to `0` and the uniform bounds set to
`a = 1`, `b = 0`: the sample-size rule and the uniform-bounds rule are both violated. -/
def zeroSizeReversedBounds : State :=
  { State.init with app := { AppState.init with
      sampleSize := JSNum.fin 0, uniformParams := ⟨JSNum.fin 1, JSNum.fin 0⟩ } }

/-- The first render with the uniform bounds set to `a = 1`, `b = 0`. -/
def reversedBounds : State :=
  { State.init with app := { AppState.init with uniformParams := ⟨JSNum.fin 1, JSNum.fin 0⟩ } }

/-- A page holding the sample `[1]` with the normal distribution selected. -/
def normalWithSample : State :=
  { State.init with app := { AppState.init with
      distribution := "normal", randomNumbers := Val.arr [Val.num (JSNum.fin 1)] } }

/-- The state of the page after the first three events of `overlappingTest`: the
sample `[1]` and its histogram are shown and "Ejecutar Prueba" is about to be clicked. -/
def firstPipelineDone : State :=
  ((Page.steps Host.sample Page.init (overlappingTest.take 3)).getD Page.init).state

/-- The page after the events of `overlappingTest`: it holds the sample `[2]` while
the test request that `handleRunTest` built from the sample `[1]` is in flight. -/
def lateTestPage : Page :=
  (Page.steps Host.sample Page.init overlappingTest).getD Page.init

/-! ## Theorems -/

/-- C1: when the configuration violates at least one validation rule, the click on
the generate button issues no request, sets `error` to the message of the first
violated rule (order: sample size, lambda, standard deviation, uniform bounds) and
changes no other cell: `randomNumbers`, `histogramData`, `testResults` and
`loading` are as before. -/
theorem C1_invalid_configuration_stops_click (h : Host) (s : State) (rs : List Response)
    (first : String) (others : List String) (hv : violations s.app = first :: others) :
    (onGenerateClick h s.app).run rs s = ⟨s.withError (some first), [], true⟩ := by
  unfold onGenerateClick
  unfold violations at hv
  by_cases h1 : JSNum.le s.app.sampleSize JSNum.zero = true
  · simp [h1, SAMPLE_SIZE_NON_POSITIVE] at hv
    simp [h1, Prog.run, Setter.apply, State.withError, hv.1.symm]
  · by_cases h2 : s.app.distribution = "exponential" ∧
        JSNum.le s.app.exponentialParams.lambda JSNum.zero = true
    · simp [h1, h2, LAMBDA_NON_POSITIVE] at hv
      simp [h1, h2, Prog.run, Setter.apply, State.withError, hv.1.symm]
    · by_cases h3 : s.app.distribution = "normal" ∧
          JSNum.le s.app.normalParams.stdDev JSNum.zero = true
      · simp [h1, h2, h3, STD_DEV_NON_POSITIVE] at hv
        have h2b : ¬ (s.app.distribution = "exponential") := by simp [h3.1]
        simp [h1, h2b, h3, Prog.run, Setter.apply, State.withError, hv.1.symm]
      · by_cases h4 : s.app.distribution = "uniform" ∧
            JSNum.ge s.app.uniformParams.a s.app.uniformParams.b = true
        · simp [h1, h2, h3, h4, UNIFORM_BOUNDS_INVALID] at hv
          have h2b : ¬ (s.app.distribution = "exponential") := by simp [h4.1]
          have h3b : ¬ (s.app.distribution = "normal") := by simp [h4.1]
          simp [h1, h2b, h3b, h4, Prog.run, Setter.apply, State.withError, hv.1.symm]
        · simp [h1, h2, h3, h4] at hv

/-- Witness of C1: sample size `0` with an exponential `lambda = -1` violates the
sample-size rule and the lambda rule; the click reports the sample-size message
and sends nothing. -/
theorem C1_invalid_configuration_stops_click_witness :
    violations zeroSizeNegativeLambda.app = [SAMPLE_SIZE_NON_POSITIVE, LAMBDA_NON_POSITIVE] ∧
    (onGenerateClick Host.sample zeroSizeNegativeLambda.app).run [] zeroSizeNegativeLambda
      = ⟨zeroSizeNegativeLambda.withError (some SAMPLE_SIZE_NON_POSITIVE), [], true⟩ :=
  ⟨by decide,
   C1_invalid_configuration_stops_click Host.sample zeroSizeNegativeLambda []
     SAMPLE_SIZE_NON_POSITIVE [LAMBDA_NON_POSITIVE] (by decide)⟩

/-- Counterexample to C2 as stated: with the uniform distribution, `a = 1 >= b = 0`
and sample size `0`, the click reports the sample-size message, not the
uniform-bounds message: the earlier rule hides the later one. -/
theorem C2_sample_size_hides_uniform_bounds :
    zeroSizeReversedBounds.app.distribution = "uniform" ∧
    JSNum.ge zeroSizeReversedBounds.app.uniformParams.a
      zeroSizeReversedBounds.app.uniformParams.b = true ∧
    ((onGenerateClick Host.sample zeroSizeReversedBounds.app).run []
      zeroSizeReversedBounds).state.app.error = some SAMPLE_SIZE_NON_POSITIVE ∧
    ((onGenerateClick Host.sample zeroSizeReversedBounds.app).run []
      zeroSizeReversedBounds).state.app.error ≠ some UNIFORM_BOUNDS_INVALID := by
  decide

/-- C2 (amended): for a uniform configuration with `a >= b` the click issues no
request and changes only `error`; it reports the uniform-bounds message when the
sample size is not `<= 0`, and the sample-size message when it is. -/
theorem C2_uniform_bounds_reported_after_sample_size (h : Host) (s : State)
    (rs : List Response) (hu : s.app.distribution = "uniform")
    (hab : JSNum.ge s.app.uniformParams.a s.app.uniformParams.b = true) :
    (onGenerateClick h s.app).run rs s =
      ⟨s.withError (some (if JSNum.le s.app.sampleSize JSNum.zero = true
          then SAMPLE_SIZE_NON_POSITIVE else UNIFORM_BOUNDS_INVALID)), [], true⟩ := by
  unfold onGenerateClick
  by_cases h1 : JSNum.le s.app.sampleSize JSNum.zero = true
  · simp [h1, Prog.run, Setter.apply, State.withError, SAMPLE_SIZE_NON_POSITIVE]
  · simp [h1, hu, hab, Prog.run, Setter.apply, State.withError, UNIFORM_BOUNDS_INVALID]

/-- Witness of C2 (amended): sample size `1000`, uniform bounds `a = 1`, `b = 0`. -/
theorem C2_uniform_bounds_reported_after_sample_size_witness :
    reversedBounds.app.distribution = "uniform" ∧
    JSNum.ge reversedBounds.app.uniformParams.a reversedBounds.app.uniformParams.b = true ∧
    (onGenerateClick Host.sample reversedBounds.app).run [] reversedBounds =
      ⟨reversedBounds.withError (some (if JSNum.le reversedBounds.app.sampleSize JSNum.zero = true
          then SAMPLE_SIZE_NON_POSITIVE else UNIFORM_BOUNDS_INVALID)), [], true⟩ :=
  ⟨by decide, by decide,
   C2_uniform_bounds_reported_after_sample_size Host.sample reversedBounds []
     (by decide) (by decide)⟩

/-- C3: the first request of `handleGenerateNumbers` goes to `/generate` and its
body has the fields `distribution` and `sample_size` followed by the parameters
of the selected distribution only: `a`, `b` for uniform, `lambda` for
exponential, `mean` and `std_dev` (from `normalParams.mean`, `normalParams.stdDev`)
for normal, and nothing for any other value of `distribution`. -/
theorem C3_generate_body_fields (h : Host) (s : State) (rs : List Response) :
    ((handleGenerateNumbers h s.app).run rs s).requests.head? =
      some ⟨API_URL ++ "/generate",
        [("distribution", Val.str s.app.distribution), ("sample_size", Val.num s.app.sampleSize)] ++
        (if s.app.distribution = "uniform" then
          [("a", Val.num s.app.uniformParams.a), ("b", Val.num s.app.uniformParams.b)]
         else if s.app.distribution = "exponential" then
          [("lambda", Val.num s.app.exponentialParams.lambda)]
         else if s.app.distribution = "normal" then
          [("mean", Val.num s.app.normalParams.mean), ("std_dev", Val.num s.app.normalParams.stdDev)]
         else [])⟩ := by
  have hbody : generateRequestParams s.app =
      [("distribution", Val.str s.app.distribution), ("sample_size", Val.num s.app.sampleSize)] ++
        (if s.app.distribution = "uniform" then
          [("a", Val.num s.app.uniformParams.a), ("b", Val.num s.app.uniformParams.b)]
         else if s.app.distribution = "exponential" then
          [("lambda", Val.num s.app.exponentialParams.lambda)]
         else if s.app.distribution = "normal" then
          [("mean", Val.num s.app.normalParams.mean), ("std_dev", Val.num s.app.normalParams.stdDev)]
         else []) := by
    unfold generateRequestParams
    by_cases hu : s.app.distribution = "uniform"
    · simp [hu, Obj.spread, Obj.set, UniformParams.toObj]
    · by_cases he : s.app.distribution = "exponential"
      · simp [he, Obj.set]
      · by_cases hn : s.app.distribution = "normal"
        · simp [hn, Obj.set]
        · simp [hu, he, hn]
  cases rs with
  | nil => simp [handleGenerateNumbers, Prog.run, hbody]
  | cons r rs => simp [handleGenerateNumbers, Prog.run, hbody]

/-- C4 (divergence): with the normal distribution selected, `handleRunTest` posts
the standard deviation under the key `stdDev` while `performGoodnessTest` posts
it under `std_dev`; the body of `handleRunTest` has no `std_dev` field. -/
theorem C4_normal_std_dev_key_differs :
    gtiRequestBody normalWithSample =
      [("random_numbers", Val.arr [Val.num (JSNum.fin 1)]), ("distribution", Val.str "normal"),
       ("mean", Val.num (JSNum.fin 0)), ("stdDev", Val.num (JSNum.fin 1)),
       ("num_bins", Val.num (JSNum.fin 10))] ∧
    testRequestParams normalWithSample.app =
      [("random_numbers", Val.arr [Val.num (JSNum.fin 1)]), ("distribution", Val.str "normal"),
       ("num_bins", Val.num (JSNum.fin 10)),
       ("mean", Val.num (JSNum.fin 0)), ("std_dev", Val.num (JSNum.fin 1))] ∧
    Obj.get (gtiRequestBody normalWithSample) "std_dev" = Val.undefined ∧
    Obj.get (testRequestParams normalWithSample.app) "std_dev" = Val.num (JSNum.fin 1) :=
  ⟨rfl, rfl, rfl, rfl⟩

/-- Outside the normal distribution the two test bodies agree field by field when
the two bin counts agree. -/
theorem test_bodies_agree_unless_normal (s : State) (k : String)
    (hn : s.app.distribution ≠ "normal") (hb : s.gti.testParams.num_bins = s.app.numBins) :
    Obj.get (gtiRequestBody s) k = Obj.get (testRequestParams s.app) k := by
  unfold gtiRequestBody testRequestParams currentParams
  by_cases hu : s.app.distribution = "uniform"
  · simp only [hu, if_true, Obj.spread, UniformParams.toObj, TestParams.toObj, List.foldl, Obj.set]
    simp [Obj.get, List.lookup, hb]
    cases h1 : (k == "random_numbers") <;> cases h2 : (k == "distribution") <;>
      cases h3 : (k == "num_bins") <;> cases h4 : (k == "a") <;> cases h5 : (k == "b") <;>
      simp_all
  · by_cases he : s.app.distribution = "exponential"
    · simp only [he, if_true, Obj.spread, ExponentialParams.toObj, TestParams.toObj, List.foldl,
        Obj.set]
      simp [Obj.get, List.lookup, hb]
      cases h1 : (k == "random_numbers") <;> cases h2 : (k == "distribution") <;>
        cases h3 : (k == "num_bins") <;> cases h4 : (k == "lambda") <;> simp_all
    · simp only [hu, he, hn, if_false, Obj.spread, TestParams.toObj, List.foldl, Obj.set]
      simp [Obj.get, List.lookup, hb]

/-- A value whose `random_numbers` is an array is an object: reading the property does not throw. -/
theorem read_random_numbers (h : Host) (data : Val) (S : List Val)
    (hS : data.optGet "random_numbers" = Val.arr S) :
    h.read data "random_numbers" = Except.ok (Val.arr S) := by
  cases data <;> simp_all [Val.optGet, Host.read]

/-- C5: when the generate request succeeds with a non-empty array `S` as
`random_numbers`, exactly one histogram request follows, with body
`{random_numbers: S, num_bins: numBins}` built from the sample just received;
when that request succeeds with data `H` the handler ends with
`randomNumbers = S`, `histogramData = H`, `error = null`, `loading = false`. -/
theorem C5_generate_success_runs_histogram (h : Host) (s : State) (data : Val) (S : List Val)
    (hS : data.optGet "random_numbers" = Val.arr S) (hne : S ≠ []) :
    ((handleGenerateNumbers h s.app).run [Response.received true (Body.json data)] s).requests =
        [generateRequest s.app, histogramRequest (Val.arr S) s.app.numBins] ∧
    (∀ (r : Response) (rs : List Response),
      ((handleGenerateNumbers h s.app).run (Response.received true (Body.json data) :: r :: rs)
          s).requests = [generateRequest s.app, histogramRequest (Val.arr S) s.app.numBins]) ∧
    (∀ (H : Val) (rs : List Response),
      (handleGenerateNumbers h s.app).run
          (Response.received true (Body.json data) :: Response.received true (Body.json H) :: rs) s =
        ⟨{ s with app := { s.app with
              loading := false, error := none, testResults := Val.null,
              randomNumbers := Val.arr S, histogramData := H } },
         [generateRequest s.app, histogramRequest (Val.arr S) s.app.numBins], true⟩) := by
  have hread := read_random_numbers h data S hS
  have hcond : (!(Val.arr S).truthy || (Val.arr S).lengthIsZero) = false := by
    cases S with
    | nil => exact absurd rfl hne
    | cons x xs => rfl
  refine ⟨?_, ?_, ?_⟩
  · simp [handleGenerateNumbers, calculateHistogram, Prog.run, hread, hcond, generateRequest,
      histogramRequest]
  · intro r rs
    rcases r with m | ⟨ok, body⟩
    · simp [handleGenerateNumbers, calculateHistogram, Prog.run, hread, hcond, generateRequest,
        histogramRequest]
    · rcases body with d | raw
      · cases ok
        · cases hr : h.read d "error" <;>
            simp [handleGenerateNumbers, calculateHistogram, Prog.run, hread, hcond,
              generateRequest, histogramRequest, hr]
        · simp [handleGenerateNumbers, calculateHistogram, Prog.run, hread, hcond,
            generateRequest, histogramRequest]
      · simp [handleGenerateNumbers, calculateHistogram, Prog.run, hread, hcond, generateRequest,
          histogramRequest]
  · intro H rs
    simp [handleGenerateNumbers, calculateHistogram, Prog.run, hread, hcond, generateRequest,
      histogramRequest, Setter.apply]

/-- Witness of C5: from the first render, the generate response carries the sample `[1]`. -/
theorem C5_generate_success_runs_histogram_witness :
    (Val.obj [("random_numbers", Val.arr [Val.num (JSNum.fin 1)])]).optGet "random_numbers"
      = Val.arr [Val.num (JSNum.fin 1)] ∧
    [Val.num (JSNum.fin 1)] ≠ [] ∧
    ((handleGenerateNumbers Host.sample State.init.app).run
        [Response.received true
          (Body.json (Val.obj [("random_numbers", Val.arr [Val.num (JSNum.fin 1)])]))]
        State.init).requests =
      [generateRequest State.init.app,
       histogramRequest (Val.arr [Val.num (JSNum.fin 1)]) State.init.app.numBins] :=
  ⟨rfl, by simp,
   (C5_generate_success_runs_histogram Host.sample State.init
      (Val.obj [("random_numbers", Val.arr [Val.num (JSNum.fin 1)])])
      [Val.num (JSNum.fin 1)] rfl (by simp)).1⟩

/-- C6 (divergence): the page shows the histogram and the test result of the
sample `[1]`; the generate request succeeds with the sample `[2]` and the
histogram request fails. The handler ends with `randomNumbers = [2]` while
`histogramData` is still the table of `[1]`, not `null`, and the `testResults` of
GoodnessTestInterface is still the result for `[1]`. -/
theorem C6_earlier_histogram_survives_failed_histogram :
    ((handleGenerateNumbers Host.sample afterEarlierSample.app).run
        [generatedTwo, Response.rejected "Failed to fetch"] afterEarlierSample).state.app.randomNumbers
      = Val.arr [Val.num (JSNum.fin 2)] ∧
    ((handleGenerateNumbers Host.sample afterEarlierSample.app).run
        [generatedTwo, Response.rejected "Failed to fetch"] afterEarlierSample).state.app.histogramData
      = histogramOfOne ∧
    histogramOfOne ≠ Val.null ∧
    ((handleGenerateNumbers Host.sample afterEarlierSample.app).run
        [generatedTwo, Response.rejected "Failed to fetch"] afterEarlierSample).state.gti.testResults
      = Val.obj [("test_type", Val.str "chi-square")] ∧
    ((handleGenerateNumbers Host.sample afterEarlierSample.app).run
        [generatedTwo, Response.rejected "Failed to fetch"] afterEarlierSample).finished = true :=
  ⟨rfl, rfl, by simp [histogramOfOne], rfl, rfl⟩

/-- What `handleGenerateNumbers` does invalidate: once it has stored a new non-empty
sample `S`, whatever the histogram request then receives, the handler ends with
`randomNumbers = S`, `loading = false` and the `testResults` of App cleared to
`null`; when the histogram request succeeds with `H`, `histogramData = H`; when
it fails, `error` is the message of that failure. -/
theorem new_sample_clears_app_test_results (h : Host) (s : State) (data : Val)
    (S : List Val) (hS : data.optGet "random_numbers" = Val.arr S) (hne : S ≠ [])
    (r : Response) (rs : List Response) :
    ((handleGenerateNumbers h s.app).run (Response.received true (Body.json data) :: r :: rs)
        s).finished = true ∧
    ((handleGenerateNumbers h s.app).run (Response.received true (Body.json data) :: r :: rs)
        s).state.app.randomNumbers = Val.arr S ∧
    ((handleGenerateNumbers h s.app).run (Response.received true (Body.json data) :: r :: rs)
        s).state.app.loading = false ∧
    ((handleGenerateNumbers h s.app).run (Response.received true (Body.json data) :: r :: rs)
        s).state.app.testResults = Val.null ∧
    (∀ H : Val, r = Response.received true (Body.json H) →
      ((handleGenerateNumbers h s.app).run (Response.received true (Body.json data) :: r :: rs)
        s).state.app.histogramData = H) ∧
    (r.failed = true →
      ((handleGenerateNumbers h s.app).run (Response.received true (Body.json data) :: r :: rs)
        s).state.app.error = some (failureMessage h "Error al calcular el histograma" r)) := by
  have hread := read_random_numbers h data S hS
  have hcond : (!(Val.arr S).truthy || (Val.arr S).lengthIsZero) = false := by
    cases S with
    | nil => exact absurd rfl hne
    | cons x xs => rfl
  rcases r with m | ⟨ok, body⟩
  · simp [handleGenerateNumbers, calculateHistogram, Prog.run, hread, hcond, Setter.apply,
      failureMessage]
  · rcases body with d | raw
    · cases ok
      · cases hr : h.read d "error" <;>
          simp [handleGenerateNumbers, calculateHistogram, Prog.run, hread, hcond, Setter.apply,
            failureMessage, hr]
      · simp [handleGenerateNumbers, calculateHistogram, Prog.run, hread, hcond, Setter.apply,
          Response.failed]
    · cases ok <;>
        simp [handleGenerateNumbers, calculateHistogram, Prog.run, hread, hcond, Setter.apply,
          failureMessage, Response.failed]

/-- C7: when the generate request fails (the transport fails, or the status is not
a success status), `handleGenerateNumbers` issues no further request and ends
with `randomNumbers` and `histogramData` as they were, `error` set to the message
of the failure and `loading = false` (`testResults` was cleared at the start). -/
theorem C7_generate_failure_keeps_sample (h : Host) (s : State) (r : Response)
    (rs : List Response) (hf : r.failed = true) :
    (handleGenerateNumbers h s.app).run (r :: rs) s =
      ⟨{ s with app := { s.app with
            loading := false,
            error := some (failureMessage h "Error al generar los números aleatorios" r),
            testResults := Val.null } },
       [generateRequest s.app], true⟩ := by
  rcases r with m | ⟨ok, body⟩
  · simp [handleGenerateNumbers, catchFinally, Prog.run, Setter.apply, failureMessage,
      generateRequest]
  · cases ok
    · rcases body with d | raw
      · cases hr : h.read d "error" <;>
          simp [handleGenerateNumbers, catchFinally, Prog.run, Setter.apply, failureMessage,
            generateRequest, hr]
      · simp [handleGenerateNumbers, catchFinally, Prog.run, Setter.apply, failureMessage,
          generateRequest]
    · simp [Response.failed] at hf

/-- Witness of C7: on the page that shows an earlier sample, the generate request
is answered with status 500 and body `{error: "boom"}`. -/
theorem C7_generate_failure_keeps_sample_witness :
    (Response.received false (Body.json (Val.obj [("error", Val.str "boom")]))).failed = true ∧
    (handleGenerateNumbers Host.sample afterEarlierSample.app).run
        [Response.received false (Body.json (Val.obj [("error", Val.str "boom")]))]
        afterEarlierSample =
      ⟨{ afterEarlierSample with app := { afterEarlierSample.app with
            loading := false,
            error := some (failureMessage Host.sample "Error al generar los números aleatorios"
              (Response.received false (Body.json (Val.obj [("error", Val.str "boom")])))),
            testResults := Val.null } },
       [generateRequest afterEarlierSample.app], true⟩ :=
  ⟨rfl, C7_generate_failure_keeps_sample Host.sample afterEarlierSample
      (Response.received false (Body.json (Val.obj [("error", Val.str "boom")]))) [] rfl⟩

/-- Counterexample to C8 as stated: the generate request is answered with a
non-success status and the body `{error: ""}`; the error shown is the fallback
text of the stage, not the empty string. -/
theorem C8_empty_error_string_replaced :
    ((handleGenerateNumbers Host.sample State.init.app).run
        [Response.received false (Body.json (Val.obj [("error", Val.str "")]))]
        State.init).state.app.error = some "Error al generar los números aleatorios" ∧
    ((handleGenerateNumbers Host.sample State.init.app).run
        [Response.received false (Body.json (Val.obj [("error", Val.str "")]))]
        State.init).state.app.error ≠ some "" := by
  decide

/-- A value whose `error` is a string is an object: reading the property does not throw. -/
theorem read_error (h : Host) (data : Val) (e : String)
    (he : data.optGet "error" = Val.str e) :
    h.read data "error" = Except.ok (Val.str e) := by
  cases data <;> simp_all [Val.optGet, Host.read]

/-- C8 (amended): in each stage (generate, histogram and test in App, test in
GoodnessTestInterface), a response with a non-success status whose body has the
string `e` as `error` leaves exactly `e` as the error shown when `e` is not empty,
and the fallback text of the stage when `e` is the empty string. The histogram
stage is the one reached after a generate response with a non-empty sample, the
test stage of App the one run on a non-empty sample. -/
theorem C8_server_error_or_fallback_shown (h : Host) (s : State) (body : Val) (e : String)
    (hbody : body.optGet "error" = Val.str e) (rs : List Response) :
    ((handleGenerateNumbers h s.app).run (Response.received false (Body.json body) :: rs)
        s).state.app.error
      = some (if e = "" then "Error al generar los números aleatorios" else e) ∧
    (∀ (data : Val) (S : List Val), data.optGet "random_numbers" = Val.arr S → S ≠ [] →
      ((handleGenerateNumbers h s.app).run
          (Response.received true (Body.json data) :: Response.received false (Body.json body) :: rs)
          s).state.app.error
        = some (if e = "" then "Error al calcular el histograma" else e)) ∧
    ((!s.app.randomNumbers.truthy || s.app.randomNumbers.lengthIsZero) = false →
      ((performGoodnessTest h s.app).run (Response.received false (Body.json body) :: rs)
          s).state.app.error
        = some (if e = "" then "Error al realizar la prueba de bondad" else e)) ∧
    ((handleRunTest s).run (Response.received false (Body.json body) :: rs) s).state.gti.error
      = Val.str (if e = "" then "Error al ejecutar la prueba" else e) := by
  have hread := read_error h body e hbody
  by_cases he : e = ""
  · subst he
    have hfalsy : (Val.str "").truthy = false := rfl
    have he : ("" : String) = "" := rfl
    refine ⟨?_, ?_, ?_, ?_⟩
    · simp [handleGenerateNumbers, catchFinally, Prog.run, Setter.apply, hread, Val.orElse,
        hfalsy, Host.errorMessage, he]
    · intro data S hS hne
      have hnum := read_random_numbers h data S hS
      have hcond : (!(Val.arr S).truthy || (Val.arr S).lengthIsZero) = false := by
        cases S with
        | nil => exact absurd rfl hne
        | cons x xs => rfl
      simp [handleGenerateNumbers, calculateHistogram, Prog.run, Setter.apply, hread, hnum,
        hcond, Val.orElse, hfalsy, Host.errorMessage, he]
    · intro hsample
      simp [performGoodnessTest, catchFinally, Prog.run, Setter.apply, hread, hsample,
        Val.orElse, hfalsy, Host.errorMessage, he]
    · simp [handleRunTest, axiosData, Prog.run, Setter.apply, hbody, Val.orElse, hfalsy, he]
  · have htruthy : (Val.str e).truthy = true := by simp [Val.truthy, he]
    refine ⟨?_, ?_, ?_, ?_⟩
    · simp [handleGenerateNumbers, catchFinally, Prog.run, Setter.apply, hread, Val.orElse,
        htruthy, Host.errorMessage, he]
    · intro data S hS hne
      have hnum := read_random_numbers h data S hS
      have hcond : (!(Val.arr S).truthy || (Val.arr S).lengthIsZero) = false := by
        cases S with
        | nil => exact absurd rfl hne
        | cons x xs => rfl
      simp [handleGenerateNumbers, calculateHistogram, Prog.run, Setter.apply, hread, hnum,
        hcond, Val.orElse, htruthy, Host.errorMessage, he]
    · intro hsample
      simp [performGoodnessTest, catchFinally, Prog.run, Setter.apply, hread, hsample,
        Val.orElse, htruthy, Host.errorMessage, he]
    · simp [handleRunTest, axiosData, Prog.run, Setter.apply, hbody, Val.orElse, htruthy, he]

/-- Witness of C8 (amended): on the page holding the sample `[1]`, the test request
of GoodnessTestInterface is answered with a non-success status and `{error: ""}`;
the error shown is the fallback text of that stage. -/
theorem C8_server_error_or_fallback_shown_witness :
    (Val.obj [("error", Val.str "")]).optGet "error" = Val.str "" ∧
    ((handleRunTest normalWithSample).run
        (Response.received false (Body.json (Val.obj [("error", Val.str "")])) :: [])
        normalWithSample).state.gti.error
      = Val.str (if "" = "" then "Error al ejecutar la prueba" else "") :=
  ⟨rfl,
   (C8_server_error_or_fallback_shown Host.sample normalWithSample
      (Val.obj [("error", Val.str "")]) "" rfl []).2.2.2⟩

/-- Counterexample to C9 as stated: a successful chi-square response without
`p_value` is stored by both test handlers, which surface no error. -/
theorem C9_response_without_p_value_is_stored :
    Obj.get [("test_type", Val.str "Chi-cuadrado"), ("chi_square_stat", Val.num (JSNum.fin 3)),
      ("critical_value", Val.num (JSNum.fin 16)), ("decision", Val.str "No se rechaza H0"),
      ("conclusion", Val.str "No se rechaza H0")] "p_value" = Val.undefined ∧
    normalWithSample.app.testResults = Val.null ∧
    normalWithSample.gti.testResults = Val.null ∧
    chiSquareWithoutPValue ≠ Val.null ∧
    ((performGoodnessTest Host.sample normalWithSample.app).run
        [Response.received true (Body.json chiSquareWithoutPValue)] normalWithSample).state.app.testResults
      = chiSquareWithoutPValue ∧
    ((performGoodnessTest Host.sample normalWithSample.app).run
        [Response.received true (Body.json chiSquareWithoutPValue)] normalWithSample).state.app.error
      = none ∧
    ((handleRunTest normalWithSample).run
        [Response.received true (Body.json chiSquareWithoutPValue)] normalWithSample).state.gti.testResults
      = chiSquareWithoutPValue ∧
    ((handleRunTest normalWithSample).run
        [Response.received true (Body.json chiSquareWithoutPValue)] normalWithSample).state.gti.error
      = Val.str "" :=
  ⟨rfl, rfl, rfl, by simp [chiSquareWithoutPValue], rfl, rfl, rfl, rfl⟩

/-- C9 (amended): the test handlers store the data of every successful test
response as it is, whatever fields it has, and surface no error:
`performGoodnessTest` (on a non-empty sample) ends with `testResults` equal to the
data, `error = null` and `loading = false`; `handleRunTest` ends with
`testResults` equal to the data and `error` equal to the empty string. -/
theorem C9_successful_test_response_stored (h : Host) (s : State) (data : Val)
    (rs : List Response)
    (hsample : (!s.app.randomNumbers.truthy || s.app.randomNumbers.lengthIsZero) = false) :
    (performGoodnessTest h s.app).run (Response.received true (Body.json data) :: rs) s =
      ⟨{ s with app := { s.app with loading := false, error := none, testResults := data } },
       [⟨API_URL ++ testEndpoint s.app, testRequestParams s.app⟩], true⟩ ∧
    (handleRunTest s).run (Response.received true (Body.json data) :: rs) s =
      ⟨{ s with gti := { s.gti with testResults := data, error := Val.str "" } },
       [⟨gtiEndpoint s.gti, gtiRequestBody s⟩], true⟩ := by
  constructor
  · simp [performGoodnessTest, Prog.run, Setter.apply, hsample]
  · simp [handleRunTest, axiosData, Prog.run, Setter.apply]

/-- Witness of C9 (amended): the page holding the sample `[1]`, answered with the
chi-square response that has no `p_value`. -/
theorem C9_successful_test_response_stored_witness :
    (!normalWithSample.app.randomNumbers.truthy || normalWithSample.app.randomNumbers.lengthIsZero)
      = false ∧
    ((performGoodnessTest Host.sample normalWithSample.app).run
        (Response.received true (Body.json chiSquareWithoutPValue) :: []) normalWithSample).finished
      = true :=
  ⟨rfl, congrArg Outcome.finished
    (C9_successful_test_response_stored Host.sample normalWithSample chiSquareWithoutPValue []
      rfl).1⟩

/-- Counterexample to C10 as stated: after the events of `overlappingTest` the page
holds the sample `[2]`, shows no test result, and one request is in flight, the
test request built from the sample `[1]`. When its response arrives it is
applied: the `testResults` of GoodnessTestInterface becomes the result computed
for `[1]`. -/
theorem C10_late_test_response_is_applied :
    ((Page.steps Host.sample Page.init overlappingTest).map
        (fun p => p.state.app.randomNumbers)) = some (Val.arr [Val.num (JSNum.fin 2)]) ∧
    ((Page.steps Host.sample Page.init overlappingTest).map
        (fun p => p.pending.map (fun w => Obj.get w.req.body "random_numbers")))
      = some [Val.arr [Val.num (JSNum.fin 1)]] ∧
    ((Page.steps Host.sample Page.init overlappingTest).map
        (fun p => p.state.gti.testResults)) = some Val.null ∧
    ((Page.steps Host.sample Page.init
        (overlappingTest ++ [Event.respond 0 (Response.received true (Body.json testResultOfOne))])).map
        (fun p => p.state.gti.testResults)) = some testResultOfOne ∧
    ((Page.steps Host.sample Page.init
        (overlappingTest ++ [Event.respond 0 (Response.received true (Body.json testResultOfOne))])).map
        (fun p => p.state.app.randomNumbers)) = some (Val.arr [Val.num (JSNum.fin 2)]) ∧
    testResultOfOne ≠ Val.null :=
  ⟨rfl, rfl, rfl, rfl, rfl, by simp [testResultOfOne]⟩

/-- A list is a permutation of one of its elements followed by the others. -/
theorem perm_cons_eraseIdx {α : Type} (l : List α) (i : Nat) (w : α)
    (hw : l[i]? = some w) : l.Perm (w :: l.eraseIdx i) := by
  induction l generalizing i with
  | nil => simp at hw
  | cons x xs ih =>
    cases i with
    | zero =>
      simp at hw
      subst hw
      simp
    | succ j =>
      simp at hw
      have hrec := ih j hw
      simp only [List.eraseIdx_cons_succ]
      exact (List.Perm.cons x hrec).trans (List.Perm.swap w x _)

/-- Two ways of splitting off one element from the same list: the elements split
off are the same, or each is among the others of the other splitting. -/
theorem perm_cons_split {α : Type} {w a : α} {l rest : List α}
    (hp : (w :: l).Perm (a :: rest)) :
    (w = a ∧ l.Perm rest) ∨ ∃ rest', rest.Perm (w :: rest') ∧ l.Perm (a :: rest') := by
  have hm : w ∈ a :: rest := hp.subset (List.mem_cons_self w l)
  rcases List.mem_cons.1 hm with hwa | hmem
  · subst hwa
    exact Or.inl ⟨rfl, hp.cons_inv⟩
  · obtain ⟨s, t, hst⟩ := List.append_of_mem hmem
    subst hst
    refine Or.inr ⟨s ++ t, List.perm_middle, ?_⟩
    have h1 : (w :: l).Perm (w :: a :: (s ++ t)) :=
      hp.trans ((List.Perm.cons a List.perm_middle).trans (List.Perm.swap w a _))
    exact h1.cons_inv

/-- The response to a request of `handleRunTest` changes only the state of
GoodnessTestInterface and ends the handler. -/
theorem runTest_resume_exec {w : Pending} (hw : FromRunTest w) (r : Response) (st : State) :
    ∃ g : GtiState, (w.resume r).exec st = (⟨st.app, g⟩, none) := by
  obtain ⟨c, hc⟩ := hw
  simp only [Prog.suspended, handleRunTest, Prog.exec, Option.some.injEq] at hc
  subst hc
  rcases r with m | ⟨ok, body⟩
  · exact ⟨_, rfl⟩
  · cases ok
    · exact ⟨_, rfl⟩
    · exact ⟨_, rfl⟩

/-- The response to a histogram request ends `handleGenerateNumbers` with `loading` cleared. -/
theorem histogram_resume_exec {h : Host} {numbers : Val} {w : Pending}
    (hw : FromHistogram h numbers w) (r : Response) (st : State) :
    ∃ st' : State, (w.resume r).exec st = (st', none) ∧ st'.app.loading = false ∧
      st'.app.randomNumbers = st.app.randomNumbers := by
  obtain ⟨c, s, hc⟩ := hw
  unfold Prog.suspended calculateHistogram at hc
  split at hc
  · simp [Prog.exec] at hc
  · simp only [Prog.exec, Option.some.injEq] at hc
    subst hc
    rcases r with m | ⟨ok, body⟩
    · exact ⟨_, rfl, rfl, rfl⟩
    · rcases body with d | raw
      · cases ok
        · cases hr : h.read d "error" <;> simp [hr, Prog.exec, Setter.apply]
        · exact ⟨_, rfl, rfl, rfl⟩
      · cases ok <;> exact ⟨_, rfl, rfl, rfl⟩

/-- The response to the test request of `performGoodnessTest` ends the handler
with `loading` cleared and the sample untouched. -/
theorem performTest_resume_exec {h : Host} {numbers : Val} {w : Pending}
    (hw : FromPerformTest h numbers w) (r : Response) (st : State) :
    ∃ st' : State, (w.resume r).exec st = (st', none) ∧ st'.app.loading = false ∧
      st'.app.randomNumbers = st.app.randomNumbers := by
  obtain ⟨c, s, _, hc⟩ := hw
  unfold Prog.suspended performGoodnessTest at hc
  split at hc
  · simp [Prog.exec] at hc
  · simp only [Prog.exec, Option.some.injEq] at hc
    subst hc
    rcases r with m | ⟨ok, body⟩
    · exact ⟨_, rfl, rfl, rfl⟩
    · rcases body with d | raw
      · cases ok
        · cases hr : h.read d "error" <;> simp [hr, Prog.exec, Setter.apply, catchFinally]
        · exact ⟨_, rfl, rfl, rfl⟩
      · cases ok <;> exact ⟨_, rfl, rfl, rfl⟩

/-- On a sample that is not empty `calculateHistogram` sends its request at once. -/
theorem calculateHistogram_suspends (h : Host) (c : AppState) (numbers : Val) (next : Prog)
    (st : State) (hn : (!numbers.truthy || numbers.lengthIsZero) = false) :
    ∃ w : Pending, (calculateHistogram h c numbers next).exec st = (st, some w) := by
  simp only [calculateHistogram, hn, Prog.exec]
  exact ⟨_, rfl⟩

/-- The response to the generate request either ends `handleGenerateNumbers` with
`loading` cleared and the sample untouched, or stores a sample and leaves the
histogram request for that sample in flight, `loading` unchanged. -/
theorem generate_resume_exec {h : Host} {w : Pending} (hw : FromGenerate h w)
    (r : Response) (st : State) :
    (∃ st' : State, (w.resume r).exec st = (st', none) ∧ st'.app.loading = false) ∨
    (∃ (st' : State) (w' : Pending), (w.resume r).exec st = (st', some w') ∧
      st'.app.loading = st.app.loading ∧ FromHistogram h st'.app.randomNumbers w') := by
  obtain ⟨c, s, hc⟩ := hw
  simp only [Prog.suspended, handleGenerateNumbers, Prog.exec, Option.some.injEq] at hc
  subst hc
  rcases r with m | ⟨ok, body⟩
  · exact Or.inl ⟨_, rfl, rfl⟩
  · rcases body with d | raw
    · cases ok
      · cases hr : h.read d "error" <;>
          simp [hr, Prog.exec, Setter.apply, catchFinally]
      · cases hr : h.read d "random_numbers" with
        | error m => simp [hr, Prog.exec, Setter.apply, catchFinally]
        | ok numbers =>
          by_cases hn : (!numbers.truthy || numbers.lengthIsZero) = true
          · left
            simp [hr, Prog.exec, Setter.apply, calculateHistogram, hn]
          · obtain ⟨w', hw'⟩ := calculateHistogram_suspends h c numbers
              (Prog.call (Setter.setLoading false) Prog.done)
              ((Setter.setRandomNumbers numbers).apply st) (by simpa using hn)
            refine Or.inr ⟨(Setter.setRandomNumbers numbers).apply st, w', ?_, rfl, c,
              (Setter.setRandomNumbers numbers).apply st, ?_⟩
            · simp only [hr, Prog.exec]
              exact hw'
            · show (Prog.exec (calculateHistogram h c numbers _) _).2 = some w'
              rw [hw']
    · cases ok <;> exact Or.inl ⟨_, rfl, rfl⟩

/-- The click on the generate button either only shows a validation message, or
sets `loading` and leaves the generate request in flight. -/
theorem onGenerateClick_exec (h : Host) (st : State) :
    (∃ st' : State, (onGenerateClick h st.app).exec st = (st', none) ∧
      st'.app.loading = st.app.loading) ∨
    (∃ (st' : State) (w : Pending), (onGenerateClick h st.app).exec st = (st', some w) ∧
      st'.app.loading = true ∧ FromGenerate h w) := by
  unfold onGenerateClick
  split
  · exact Or.inl ⟨_, rfl, rfl⟩
  · split
    · exact Or.inl ⟨_, rfl, rfl⟩
    · split
      · exact Or.inl ⟨_, rfl, rfl⟩
      · split
        · exact Or.inl ⟨_, rfl, rfl⟩
        · exact Or.inr ⟨_, _, rfl, rfl, st.app, st, rfl⟩

/-- The click on the test button of App either only shows a message, or sets
`loading` and leaves the test request for the current sample in flight. -/
theorem performGoodnessTest_exec (h : Host) (st : State) :
    (∃ st' : State, (performGoodnessTest h st.app).exec st = (st', none) ∧
      st'.app.loading = st.app.loading) ∨
    (∃ (st' : State) (w : Pending), (performGoodnessTest h st.app).exec st = (st', some w) ∧
      st'.app.loading = true ∧ FromPerformTest h st'.app.randomNumbers w) := by
  by_cases hn : (!st.app.randomNumbers.truthy || st.app.randomNumbers.lengthIsZero) = true
  · have hexec : ∃ st' : State, (performGoodnessTest h st.app).exec st = (st', none) ∧
        st'.app.loading = st.app.loading := by
      simp only [performGoodnessTest, hn, if_true, Prog.exec]
      exact ⟨_, rfl, rfl⟩
    exact Or.inl hexec
  · have hexec : ∃ (st' : State) (w : Pending),
        (performGoodnessTest h st.app).exec st = (st', some w) ∧ st'.app.loading = true ∧
          st'.app.randomNumbers = st.app.randomNumbers := by
      simp only [performGoodnessTest, hn, Prog.exec]
      exact ⟨_, _, rfl, rfl, rfl⟩
    obtain ⟨st', w, hw, hl, hsample⟩ := hexec
    refine Or.inr ⟨st', w, hw, hl, st.app, st, hsample.symm, ?_⟩
    show (Prog.exec _ _).2 = some w
    rw [hw]

/-- The predicate `Exclusive` looks only at `loading`, at the sample and at the requests in flight. -/
theorem exclusive_of_same {h : Host} {p q : Page} (hinv : Exclusive h p)
    (hl : q.state.app.loading = p.state.app.loading)
    (hr : q.state.app.randomNumbers = p.state.app.randomNumbers)
    (hp : q.pending = p.pending) : Exclusive h q := by
  unfold Exclusive FromApp at *
  rw [hl, hr, hp]
  exact hinv

/-- A request of `handleRunTest` joining the requests in flight keeps `Exclusive`. -/
theorem exclusive_add_run_test {h : Host} {p : Page} {w : Pending} (hinv : Exclusive h p)
    (hw : FromRunTest w) : Exclusive h ⟨p.state, p.pending ++ [w]⟩ := by
  rcases hinv with ⟨hl, hall⟩ | ⟨hl, a, rest, hpa, happ, hrest⟩
  · refine Or.inl ⟨hl, ?_⟩
    intro x hx
    rcases List.mem_append.1 hx with hx | hx
    · exact hall x hx
    · rw [List.mem_singleton.1 hx]
      exact hw
  · refine Or.inr ⟨hl, a, rest ++ [w], ?_, happ, ?_⟩
    · exact List.Perm.append_right [w] hpa
    · intro x hx
      rcases List.mem_append.1 hx with hx | hx
      · exact hrest x hx
      · rw [List.mem_singleton.1 hx]
        exact hw

/-- The arrival of a response keeps `Exclusive`. -/
theorem exclusive_respond {h : Host} {p : Page} (hinv : Exclusive h p) (i : Nat) (w : Pending)
    (r : Response) (hget : p.pending[i]? = some w) :
    Exclusive h (p.runProg (w.resume r) (p.pending.eraseIdx i)) := by
  have hperm := perm_cons_eraseIdx p.pending i w hget
  rcases hinv with ⟨hl, hall⟩ | ⟨hl, a, rest, hpa, happ, hrest⟩
  · obtain ⟨g, hg⟩ :=
      runTest_resume_exec (hall w (hperm.symm.subset (List.mem_cons_self w _))) r p.state
    simp only [Page.runProg, hg]
    exact Or.inl ⟨hl, fun x hx => hall x (List.mem_of_mem_eraseIdx hx)⟩
  · rcases perm_cons_split (hperm.symm.trans hpa) with ⟨hwa, herase⟩ | ⟨rest', hrest', herase⟩
    · subst hwa
      have hgti : ∀ x ∈ p.pending.eraseIdx i, FromRunTest x :=
        fun x hx => hrest x (herase.subset hx)
      rcases happ with hgen | hhist | htest
      · rcases generate_resume_exec hgen r p.state with ⟨st', hex, hl'⟩ | ⟨st', w', hex, hl', hh⟩
        · simp only [Page.runProg, hex]
          exact Or.inl ⟨hl', hgti⟩
        · simp only [Page.runProg, hex]
          exact Or.inr ⟨hl'.trans hl, w', p.pending.eraseIdx i,
            List.perm_append_singleton w' _, Or.inr (Or.inl hh), hgti⟩
      · obtain ⟨st', hex, hl', _⟩ := histogram_resume_exec hhist r p.state
        simp only [Page.runProg, hex]
        exact Or.inl ⟨hl', hgti⟩
      · obtain ⟨st', hex, hl', _⟩ := performTest_resume_exec htest r p.state
        simp only [Page.runProg, hex]
        exact Or.inl ⟨hl', hgti⟩
    · have hwg : FromRunTest w := hrest w (hrest'.symm.subset (List.mem_cons_self w _))
      obtain ⟨g, hg⟩ := runTest_resume_exec hwg r p.state
      simp only [Page.runProg, hg]
      exact Or.inr ⟨hl, a, rest', herase, happ,
        fun x hx => hrest x (hrest'.symm.subset (List.mem_cons_of_mem w hx))⟩

/-- Every event the page offers keeps `Exclusive`. -/
theorem exclusive_step {h : Host} {p q : Page} {e : Event} (hinv : Exclusive h p)
    (hstep : p.step h e = some q) : Exclusive h q := by
  cases e with
  | clickGenerate =>
    simp only [Page.step] at hstep
    split at hstep
    · simp at hstep
    · rename_i hload
      simp only [Option.some.injEq] at hstep
      subst hstep
      have hl : p.state.app.loading = false := by simpa using hload
      have hall : ∀ w ∈ p.pending, FromRunTest w := by
        rcases hinv with ⟨_, hall⟩ | ⟨hl', _⟩
        · exact hall
        · rw [hl] at hl'
          exact absurd hl' (by decide)
      rcases onGenerateClick_exec h p.state with ⟨st', hex, hl'⟩ | ⟨st', w, hex, hl', hw⟩
      · simp only [Page.runProg, hex]
        exact Or.inl ⟨hl'.trans hl, hall⟩
      · simp only [Page.runProg, hex]
        exact Or.inr ⟨hl', w, p.pending, List.perm_append_singleton w _, Or.inl hw, hall⟩
  | clickPerformTest =>
    simp only [Page.step] at hstep
    split at hstep
    · simp at hstep
    · rename_i hload
      simp only [Option.some.injEq] at hstep
      subst hstep
      have hl : p.state.app.loading = false := by
        cases hb : p.state.app.loading
        · rfl
        · simp [hb] at hload
      have hall : ∀ w ∈ p.pending, FromRunTest w := by
        rcases hinv with ⟨_, hall⟩ | ⟨hl', _⟩
        · exact hall
        · rw [hl] at hl'
          exact absurd hl' (by decide)
      rcases performGoodnessTest_exec h p.state with ⟨st', hex, hl'⟩ | ⟨st', w, hex, hl', hw⟩
      · simp only [Page.runProg, hex]
        exact Or.inl ⟨hl'.trans hl, hall⟩
      · simp only [Page.runProg, hex]
        exact Or.inr ⟨hl', w, p.pending, List.perm_append_singleton w _, Or.inr (Or.inr hw), hall⟩
  | clickRunTest =>
    simp only [Page.step, Option.some.injEq] at hstep
    subst hstep
    have hex : ∃ w : Pending, (handleRunTest p.state).exec p.state = (p.state, some w) :=
      ⟨_, rfl⟩
    obtain ⟨w, hw⟩ := hex
    simp only [Page.runProg, hw]
    exact exclusive_add_run_test hinv ⟨p.state, by show (Prog.exec _ _).2 = some w; rw [hw]⟩
  | respond i r =>
    simp only [Page.step] at hstep
    cases hget : p.pending[i]? with
    | none => simp [hget] at hstep
    | some w =>
      simp [hget] at hstep
      subst hstep
      exact exclusive_respond hinv i w r hget
  | setDistribution d =>
    simp only [Page.step] at hstep
    split at hstep
    · simp only [Option.some.injEq] at hstep
      subst hstep
      exact exclusive_of_same hinv rfl rfl rfl
    · simp at hstep
  | setSampleSize n =>
    simp only [Page.step, Option.some.injEq] at hstep
    subst hstep
    exact exclusive_of_same hinv rfl rfl rfl
  | setNumBins n =>
    simp only [Page.step] at hstep
    split at hstep
    · simp only [Option.some.injEq] at hstep
      subst hstep
      exact exclusive_of_same hinv rfl rfl rfl
    · simp at hstep
  | setUniformA x =>
    simp only [Page.step] at hstep
    split at hstep
    · simp only [Option.some.injEq] at hstep
      subst hstep
      exact exclusive_of_same hinv rfl rfl rfl
    · simp at hstep
  | setUniformB x =>
    simp only [Page.step] at hstep
    split at hstep
    · simp only [Option.some.injEq] at hstep
      subst hstep
      exact exclusive_of_same hinv rfl rfl rfl
    · simp at hstep
  | setLambda x =>
    simp only [Page.step] at hstep
    split at hstep
    · simp only [Option.some.injEq] at hstep
      subst hstep
      exact exclusive_of_same hinv rfl rfl rfl
    · simp at hstep
  | setMean x =>
    simp only [Page.step] at hstep
    split at hstep
    · simp only [Option.some.injEq] at hstep
      subst hstep
      exact exclusive_of_same hinv rfl rfl rfl
    · simp at hstep
  | setStdDev x =>
    simp only [Page.step] at hstep
    split at hstep
    · simp only [Option.some.injEq] at hstep
      subst hstep
      exact exclusive_of_same hinv rfl rfl rfl
    · simp at hstep
  | selectTest ks =>
    simp only [Page.step, Option.some.injEq] at hstep
    subst hstep
    exact exclusive_of_same hinv rfl rfl rfl
  | setTestBins n =>
    simp only [Page.step] at hstep
    split at hstep
    · simp only [Option.some.injEq] at hstep
      subst hstep
      exact exclusive_of_same hinv rfl rfl rfl
    · simp at hstep

/-- Every reachable page is `Exclusive`. -/
theorem reachable_exclusive {h : Host} {p : Page} (hp : Reachable h p) : Exclusive h p := by
  induction hp with
  | init => exact Or.inl ⟨rfl, fun w hw => by simp [Page.init] at hw⟩
  | step e _ next ih => exact exclusive_step ih next

/-- A page reached from a reachable page by a sequence of events is reachable. -/
theorem reachable_steps {h : Host} {p q : Page} (es : List Event) (hp : Reachable h p)
    (hq : Page.steps h p es = some q) : Reachable h q := by
  induction es generalizing p with
  | nil =>
    simp only [Page.steps, Option.some.injEq] at hq
    subst hq
    exact hp
  | cons e es ih =>
    simp only [Page.steps] at hq
    cases hstep : p.step h e with
    | none => simp [hstep] at hq
    | some p' =>
      rw [hstep] at hq
      exact ih (Reachable.step e hp hstep) hq

/-- A request of `handleRunTest` does not go to `/histogram`. -/
theorem runTest_url_ne {w : Pending} (hw : FromRunTest w) :
    w.req.url ≠ API_URL ++ "/histogram" := by
  obtain ⟨c, hc⟩ := hw
  simp only [Prog.suspended, handleRunTest, Prog.exec, Option.some.injEq] at hc
  subst hc
  show gtiEndpoint c.gti ≠ _
  unfold gtiEndpoint
  split <;> decide

/-- The generate request goes to `/generate`. -/
theorem generate_url {h : Host} {w : Pending} (hw : FromGenerate h w) :
    w.req.url = API_URL ++ "/generate" := by
  obtain ⟨c, s, hc⟩ := hw
  simp only [Prog.suspended, handleGenerateNumbers, Prog.exec, Option.some.injEq] at hc
  subst hc
  rfl

/-- The generate request does not go to `/histogram`. -/
theorem generate_url_ne {h : Host} {w : Pending} (hw : FromGenerate h w) :
    w.req.url ≠ API_URL ++ "/histogram" := by
  rw [generate_url hw]
  decide

/-- What a request of `performGoodnessTest` is: its target is neither `/histogram` nor
`/generate`, its body carries the sample of the snapshot, and on a transport
failure its continuation sets the error of App. -/
theorem performGoodnessTest_suspended {h : Host} {c : AppState} {s : State} {w : Pending}
    (hw : (performGoodnessTest h c).suspended s = some w) :
    (w.req.url ≠ API_URL ++ "/histogram" ∧ w.req.url ≠ API_URL ++ "/generate") ∧
    Obj.get w.req.body "random_numbers" = c.randomNumbers ∧
    w.resume (Response.rejected "") = catchFinally "" := by
  unfold Prog.suspended performGoodnessTest at hw
  split at hw
  · simp [Prog.exec] at hw
  · simp only [Prog.exec, Option.some.injEq] at hw
    subst hw
    refine ⟨?_, ?_, rfl⟩
    · show API_URL ++ testEndpoint c ≠ _ ∧ API_URL ++ testEndpoint c ≠ _
      unfold testEndpoint
      split
      · decide
      · split <;> decide
    · show Obj.get (testRequestParams c) "random_numbers" = c.randomNumbers
      unfold testRequestParams
      split
      · rfl
      · split
        · rfl
        · split <;> rfl

/-- The body of the histogram request carries the sample it was sent for. -/
theorem histogram_body {h : Host} {numbers : Val} {w : Pending}
    (hw : FromHistogram h numbers w) : Obj.get w.req.body "random_numbers" = numbers := by
  obtain ⟨c, s, hc⟩ := hw
  unfold Prog.suspended calculateHistogram at hc
  split at hc
  · simp [Prog.exec] at hc
  · simp only [Prog.exec, Option.some.injEq] at hc
    subst hc
    rfl

/-- A request of `handleRunTest` is not a request of `performGoodnessTest`: on a
transport failure the first sets the error of GoodnessTestInterface, the second
the error of App. -/
theorem runTest_not_performGoodnessTest {h : Host} {c : AppState} {s : State} {w : Pending}
    (hw : FromRunTest w) (hc : (performGoodnessTest h c).suspended s = some w) : False := by
  have hres := (performGoodnessTest_suspended hc).2.2
  obtain ⟨c', hc'⟩ := hw
  simp only [Prog.suspended, handleRunTest, Prog.exec, Option.some.injEq] at hc'
  subst hc'
  simp [catchFinally] at hres

/-- C10 (amended): no response is compared with the current sample; what keeps App
safe is that its two buttons are disabled while `loading`. On every page reachable
through the events the page offers, a histogram request in flight carries the
current sample, and so does a test request of `performGoodnessTest`: the response
to neither can arrive after its sample was replaced. The response to a request of
`handleRunTest` is applied on arrival whatever the current sample is: the
`testResults` of GoodnessTestInterface becomes the data received and its error is
cleared. -/
theorem C10_only_app_requests_stay_current (h : Host) (p : Page) (hp : Reachable h p) :
    (∀ w ∈ p.pending, w.req.url = API_URL ++ "/histogram" →
      Obj.get w.req.body "random_numbers" = p.state.app.randomNumbers) ∧
    (∀ w ∈ p.pending, ∀ (c : AppState) (s : State),
      (performGoodnessTest h c).suspended s = some w →
      Obj.get w.req.body "random_numbers" = p.state.app.randomNumbers) ∧
    (∀ (i : Nat) (c : State) (data : Val),
      p.pending.get? i = (handleRunTest c).suspended c →
      p.step h (Event.respond i (Response.received true (Body.json data))) =
        some ⟨{ p.state with gti := { p.state.gti with testResults := data, error := Val.str "" } },
          p.pending.eraseIdx i⟩) := by
  have hinv := reachable_exclusive hp
  refine ⟨?_, ?_, ?_⟩
  · intro w hw hurl
    rcases hinv with ⟨_, hall⟩ | ⟨_, a, rest, hpa, happ, hrest⟩
    · exact absurd hurl (runTest_url_ne (hall w hw))
    · rcases List.mem_cons.1 (hpa.subset hw) with hwa | hwr
      · subst hwa
        rcases happ with hgen | hhist | ⟨c, s, _, hc⟩
        · exact absurd hurl (generate_url_ne hgen)
        · exact histogram_body hhist
        · exact absurd hurl (performGoodnessTest_suspended hc).1.1
      · exact absurd hurl (runTest_url_ne (hrest w hwr))
  · intro w hw c s hc
    rcases hinv with ⟨_, hall⟩ | ⟨_, a, rest, hpa, happ, hrest⟩
    · exact (runTest_not_performGoodnessTest (hall w hw) hc).elim
    · rcases List.mem_cons.1 (hpa.subset hw) with hwa | hwr
      · subst hwa
        rcases happ with hgen | hhist | ⟨c', s', hsample, hc'⟩
        · exact absurd (generate_url hgen) (performGoodnessTest_suspended hc).1.2
        · exact histogram_body hhist
        · rw [(performGoodnessTest_suspended hc').2.1, hsample]
      · exact (runTest_not_performGoodnessTest (hrest w hwr) hc).elim
  · intro i c data hw
    simp only [Page.step, hw, Prog.suspended, handleRunTest, Prog.exec]
    simp [Page.runProg, Prog.exec, Setter.apply, axiosData]

/-- Witness of C10 (amended): the page after the events of `overlappingTest` is
reachable; it holds the sample `[2]`, the test request built from the sample `[1]`
is in flight, and its response is applied. -/
theorem C10_only_app_requests_stay_current_witness :
    Reachable Host.sample lateTestPage ∧
    lateTestPage.pending.get? 0 = (handleRunTest firstPipelineDone).suspended firstPipelineDone ∧
    lateTestPage.step Host.sample
        (Event.respond 0 (Response.received true (Body.json testResultOfOne))) =
      some ⟨{ lateTestPage.state with gti := { lateTestPage.state.gti with
          testResults := testResultOfOne, error := Val.str "" } },
        lateTestPage.pending.eraseIdx 0⟩ :=
  ⟨reachable_steps overlappingTest Reachable.init rfl, rfl,
   (C10_only_app_requests_stay_current Host.sample lateTestPage
      (reachable_steps overlappingTest Reachable.init rfl)).2.2 0 firstPipelineDone
      testResultOfOne rfl⟩

/-- C11 (divergence): a chi-square test is run on the sample `[1]` and its result,
with `chi_square_stat = 3`, is stored and shown; then "Kolmogorov-Smirnov" is
clicked. The stored result is the same, but the statistic shown is now read from
`ks_stat`, which a chi-square result does not have: it is `undefined`, no longer `3`. -/
theorem C11_statistic_read_by_selected_kind :
    ((Page.steps Host.sample Page.init chiSquareTestDone).map
        (fun p => p.state.gti.testResults)) = some testResultOfOne ∧
    ((Page.steps Host.sample Page.init chiSquareTestDone).map
        (fun p => (renderResults p.state.gti).map ResultView.statistic))
      = some (some (Val.num (JSNum.fin 3))) ∧
    ((Page.steps Host.sample Page.init (chiSquareTestDone ++ [Event.selectTest true])).map
        (fun p => p.state.gti.testResults)) = some testResultOfOne ∧
    ((Page.steps Host.sample Page.init (chiSquareTestDone ++ [Event.selectTest true])).map
        (fun p => (renderResults p.state.gti).map ResultView.test_type))
      = some (some (Val.str "Chi-cuadrado")) ∧
    ((Page.steps Host.sample Page.init (chiSquareTestDone ++ [Event.selectTest true])).map
        (fun p => (renderResults p.state.gti).map ResultView.statistic))
      = some (some Val.undefined) ∧
    Val.num (JSNum.fin 3) ≠ Val.undefined :=
  ⟨rfl, rfl, rfl, rfl, rfl, by simp⟩

/-- The result block shows `critical_value`, `p_value` and `conclusion` of the stored
result as they are, whatever test kind is selected. -/
theorem renderResults_passes_fields_through (g : GtiState) (hshown : g.testResults.truthy = true) :
    ∃ v : ResultView, renderResults g = some v ∧
      v.critical_value = g.testResults.optGet "critical_value" ∧
      v.p_value = g.testResults.optGet "p_value" ∧
      v.conclusion = g.testResults.optGet "conclusion" := by
  simp [renderResults, hshown]

/-- While the selected kind is the one the result belongs to, the statistic shown
is the statistic field of that kind. -/
theorem renderResults_statistic_of_selected (g : GtiState) (hshown : g.testResults.truthy = true) :
    (g.goodnessTest = "chi" →
      (renderResults g).map ResultView.statistic = some (g.testResults.optGet "chi_square_stat")) ∧
    (g.goodnessTest = "ks" →
      (renderResults g).map ResultView.statistic = some (g.testResults.optGet "ks_stat")) := by
  constructor
  · intro hk
    simp [renderResults, hshown, hk]
  · intro hk
    simp [renderResults, hshown, hk]

/-- C12 (divergence): on the first render the sample is the empty array; a click on
"Ejecutar Prueba" makes `handleRunTest` send a test request whose body carries
`random_numbers: []`. -/
theorem C12_run_test_sends_empty_sample :
    State.init.app.randomNumbers = Val.arr [] ∧
    ((handleRunTest State.init).run [] State.init).requests =
      [⟨API_URL ++ "/chi-square-test",
        [("random_numbers", Val.arr []), ("distribution", Val.str "uniform"),
         ("a", Val.num (JSNum.fin 0)), ("b", Val.num (JSNum.fin 1)),
         ("num_bins", Val.num (JSNum.fin 10))]⟩] ∧
    ((Page.step Host.sample Page.init Event.clickRunTest).map
        (fun p => p.pending.map (fun w => w.req.url))) = some [API_URL ++ "/chi-square-test"] :=
  ⟨rfl, rfl, rfl⟩

/-- On a sample that is missing or empty `calculateHistogram` sends nothing: it sets
its error message and returns to its caller. -/
theorem calculateHistogram_without_sample (h : Host) (c : AppState) (numbers : Val)
    (next : Prog) (rs : List Response) (s : State)
    (hempty : (!numbers.truthy || numbers.lengthIsZero) = true) :
    (calculateHistogram h c numbers next).run rs s =
      next.run rs (s.withError (some "No hay números para calcular el histograma")) := by
  simp [calculateHistogram, hempty, Prog.run, Setter.apply, State.withError]

/-- On a sample that is missing or empty `performGoodnessTest` sends nothing: it sets
its error message and returns. -/
theorem performGoodnessTest_without_sample (h : Host) (s : State) (rs : List Response)
    (hempty : (!s.app.randomNumbers.truthy || s.app.randomNumbers.lengthIsZero) = true) :
    (performGoodnessTest h s.app).run rs s =
      ⟨s.withError (some "No hay números generados para realizar la prueba"), [], true⟩ := by
  simp [performGoodnessTest, hempty, Prog.run, Setter.apply, State.withError]

/-- The function `handleRunTest` sends its request from every state, whatever the sample. -/
theorem handleRunTest_always_sends (s : State) (rs : List Response) :
    ((handleRunTest s).run rs s).requests.head? = some ⟨gtiEndpoint s.gti, gtiRequestBody s⟩ := by
  cases rs with
  | nil => simp [handleRunTest, Prog.run]
  | cons r rs => simp [handleRunTest, Prog.run]

end SimG11
